import Mathlib

/-!
Shallow embedding of the `portforward` Go library (package `portforward`,
file `portforward.go`): resource resolution (pod / service endpoints),
listen-port selection, and the ready/error race at the end of `Start`.

Kubernetes API objects and collaborators (label selectors, the selector
formatter, the pod/endpoints list calls, the OS free-port probe) are
modelled as explicit data and oracle parameters; the cluster state that
the fake clientset would hold in the tests becomes a `Cluster` value.
-/

/-- Label-selector expression operator (`metav1.LabelSelectorOperator`):
`In`, `NotIn`, `Exists`, `DoesNotExist`. -/
inductive SelOp where
  | opIn
  | opNotIn
  | opExists
  | opDoesNotExist
deriving DecidableEq, Repr

/-- `metav1.LabelSelectorRequirement`: key, operator, list of values. -/
structure LabelSelectorRequirement where
  key : String
  operator : SelOp
  values : List String
deriving DecidableEq, Repr

/-- `metav1.LabelSelector`: exact-match pairs (`MatchLabels`, a map with
unique keys, modelled as an association list) plus expression
requirements (`MatchExpressions`). -/
structure LabelSelector where
  matchLabels : List (String × String) := []
  matchExpressions : List LabelSelectorRequirement := []
deriving DecidableEq, Repr

/-- Look a key up in a label map (association list). -/
def lookupLabel (ls : List (String × String)) (k : String) : Option String :=
  (ls.find? (fun kv => kv.1 == k)).map Prod.snd

/-- Platform semantics of one expression requirement against a label map
(`labels.Requirement.Matches`): `In` needs the key present with a listed
value, `NotIn` is satisfied by an absent key or an unlisted value,
`Exists` / `DoesNotExist` test key presence. -/
def reqMatches (r : LabelSelectorRequirement) (ls : List (String × String)) : Bool :=
  match r.operator, lookupLabel ls r.key with
  | .opIn, some v => r.values.contains v
  | .opIn, none => false
  | .opNotIn, some v => !(r.values.contains v)
  | .opNotIn, none => true
  | .opExists, o => o.isSome
  | .opDoesNotExist, o => o.isNone

/-- A label selector matches a label map when every exact-match pair and
every expression requirement is satisfied. -/
def selMatches (sel : LabelSelector) (ls : List (String × String)) : Bool :=
  sel.matchLabels.all (fun kv => lookupLabel ls kv.1 == some kv.2) &&
  sel.matchExpressions.all (fun r => reqMatches r ls)

/-- Lexicographic strict order on character lists, by code point. -/
def charsLt : List Char → List Char → Bool
  | _, [] => false
  | [], _ :: _ => true
  | a :: as, b :: bs =>
    Nat.blt a.toNat b.toNat || (Nat.beq a.toNat b.toNat && charsLt as bs)

/-- Lexicographic strict order on strings, by code point. -/
def strLt (a b : String) : Bool := charsLt a.data b.data

/-- Insert a string into an already sorted list (ascending). -/
def insertStr (x : String) : List String → List String
  | [] => [x]
  | y :: ys => if strLt y x then y :: insertStr x ys else x :: y :: ys

/-- Insertion sort on strings, used for the sorted value lists of the
platform's selector formatter. -/
def sortStrings (l : List String) : List String :=
  l.foldl (fun acc x => insertStr x acc) []

/-- Render one requirement in the platform's canonical textual form
(`labels.Requirement.String`): `key=value` for exact pairs, `key in (v1,v2)`
for `In` (values sorted), `key notin (...)` for `NotIn`, bare `key` for
`Exists`, `!key` for `DoesNotExist`. -/
def formatReq (key : String) (op : SelOp) (values : List String) : String :=
  match op with
  | .opIn => key ++ " in (" ++ String.intercalate "," (sortStrings values) ++ ")"
  | .opNotIn => key ++ " notin (" ++ String.intercalate "," (sortStrings values) ++ ")"
  | .opExists => key
  | .opDoesNotExist => "!" ++ key

/-- Insert a (key, rendered requirement) pair into a list sorted by key. -/
def insertByKey (x : String × String) : List (String × String) → List (String × String)
  | [] => [x]
  | y :: ys => if strLt y.1 x.1 then y :: insertByKey x ys else x :: y :: ys

/-- Sort (key, rendered requirement) pairs by key, as the platform
formatter sorts its requirements (`ByKey`). -/
def sortByKey (l : List (String × String)) : List (String × String) :=
  l.foldl (fun acc x => insertByKey x acc) []

/-- `metav1.FormatLabelSelector`, the platform's standard selector
formatter: exact-match pairs rendered as `key=value`, expressions per
`formatReq`, all requirements sorted by key and joined by `,`; an empty
selector renders as `<none>`. -/
def formatLabelSelector (sel : LabelSelector) : String :=
  let reqs :=
    sel.matchLabels.map (fun kv => (kv.1, kv.1 ++ "=" ++ kv.2)) ++
    sel.matchExpressions.map (fun r => (r.key, formatReq r.key r.operator r.values))
  match reqs with
  | [] => "<none>"
  | _ :: _ => String.intercalate "," ((sortByKey reqs).map Prod.snd)

/-- A pod record as the resolver sees it: name, namespace, labels, and
status phase (`status.phase`, e.g. `"Running"`). -/
structure Pod where
  name : String
  ns : String := ""
  labels : List (String × String) := []
  phase : String := ""
deriving DecidableEq, Repr

/-- One endpoint address (`v1.EndpointAddress`); `targetRef` is the name
of the optional backing-pod reference (`TargetRef`, nil modelled as
`none`). -/
structure EndpointAddress where
  targetRef : Option String := none
deriving DecidableEq, Repr

/-- One endpoint subset (`v1.EndpointSubset`): an ordered address list. -/
structure EndpointSubset where
  addresses : List EndpointAddress := []
deriving DecidableEq, Repr

/-- An endpoints record (`v1.Endpoints`): name, namespace, labels, and
ordered subsets. -/
structure Endpoints where
  name : String
  ns : String := ""
  labels : List (String × String) := []
  subsets : List EndpointSubset := []
deriving DecidableEq, Repr

/-- The cluster state behind the API client (what the fake clientset
holds in the tests). -/
structure Cluster where
  pods : List Pod := []
  endpoints : List Endpoints := []
deriving DecidableEq, Repr

/-- `Pods(namespace).List` with the label selector and the
`status.phase=Running` field selector, as issued by `getPodName`: pods in
the namespace whose labels match and whose phase is running. -/
def listPods (c : Cluster) (ns : String) (sel : LabelSelector) : List Pod :=
  c.pods.filter (fun p => p.ns == ns && selMatches sel p.labels && p.phase == "Running")

/-- `Endpoints(namespace).List` with the label selector and no field
selector, as issued by `getFromEndpoints`. -/
def listEndpoints (c : Cluster) (ns : String) (sel : LabelSelector) : List Endpoints :=
  c.endpoints.filter (fun e => e.ns == ns && selMatches sel e.labels)

/-- `resType`: the resource type tag of a `PortForward`. -/
inductive ResType where
  | podType
  | serviceType
deriving DecidableEq, Repr

/-- `resType.String()`. -/
def ResType.toString : ResType → String
  | .podType => "pod"
  | .serviceType => "service"

/-- The `PortForward` configuration fields the resolver and port logic
read (config, clientset and channels are external collaborators). Field
defaults are Go zero values (`resType` zero value is `podType`). -/
structure PortForward where
  name : String := ""
  ns : String := ""
  labels : LabelSelector := {}
  destinationPort : Int := 0
  listenPort : Int := 0
  resType : ResType := .podType
deriving DecidableEq, Repr

/-- `ResourceForwardOption`. -/
def ResourceForwardOption := PortForward → PortForward

/-- `WithPodForward`. -/
def withPodForward : ResourceForwardOption :=
  fun pf => { pf with resType := .podType }

/-- `WithServiceForward`. -/
def withServiceForward : ResourceForwardOption :=
  fun pf => { pf with resType := .serviceType }

/-- `NewPortForwarder(namespace, labels, port, opts...)`: builds the
struct with `resType: serviceType` and applies the options in order.
Loading the kubeconfig and creating the client are external collaborator
steps that do not touch these fields. -/
def newPortForwarder (ns : String) (labels : LabelSelector) (port : Int)
    (opts : List ResourceForwardOption) : PortForward :=
  let pf : PortForward :=
    { ns := ns, labels := labels, destinationPort := port, resType := .serviceType }
  opts.foldl (fun pf o => o pf) pf

/-- `getPodName`: list running pods matching the selector; zero matches
is a not-found error, more than one an ambiguity error, exactly one
returns its name. Both messages interpolate `resType` and the canonical
selector string. -/
def getPodName (p : PortForward) (c : Cluster) : Except String String :=
  let formatLabelSel := formatLabelSelector p.labels
  match listPods c p.ns p.labels with
  | [] =>
      .error ("could not find running " ++ p.resType.toString ++
        " for selector: labels \"" ++ formatLabelSel ++ "\"")
  | [pod] => .ok pod.name
  | _ :: _ :: _ =>
      .error ("ambiguous " ++ p.resType.toString ++ ": found more than one " ++
        p.resType.toString ++ " for selector: labels \"" ++ formatLabelSel ++ "\"")

/-- The inner loop of `getFromEndpoints` over one subset's addresses:
first address whose `TargetRef` is non-nil. -/
def firstAddrTargetRef : List EndpointAddress → Option String
  | [] => none
  | a :: rest =>
    match a.targetRef with
    | some n => some n
    | none => firstAddrTargetRef rest

/-- The outer loop of `getFromEndpoints` over the chosen endpoint's
subsets, in order. -/
def firstTargetRef : List EndpointSubset → Option String
  | [] => none
  | s :: rest =>
    match firstAddrTargetRef s.addresses with
    | some n => some n
    | none => firstTargetRef rest

/-- `getFromEndpoints`: list endpoints matching the selector (no field
selector); zero matches errors with a message naming `endpoints` (a
fixed word, not `resType`); otherwise pick the endpoint at the random
draw `rand.Intn(len)` — modelled by the oracle `r`, reduced mod the list
length — and return the first backing reference, or error naming the
chosen endpoint when it has none. -/
def getFromEndpoints (p : PortForward) (c : Cluster) (r : Nat) : Except String String :=
  let formatLabelSel := formatLabelSelector p.labels
  let eps := listEndpoints c p.ns p.labels
  if h : eps.length = 0 then
    .error ("could not find running endpoints for selector: labels \"" ++
      formatLabelSel ++ "\"")
  else
    let randEp := eps.get ⟨r % eps.length, Nat.mod_lt r (Nat.pos_of_ne_zero h)⟩
    match firstTargetRef randEp.subsets with
    | some n => .ok n
    | none => .error ("could not find any pods attached to endpoint " ++ randEp.name)

/-- `findResourceByLabels`: fail when both selector parts are empty,
else dispatch on the resource type. -/
def findResourceByLabels (p : PortForward) (c : Cluster) (r : Nat) : Except String String :=
  if p.labels.matchLabels = [] ∧ p.labels.matchExpressions = [] then
    .error ("no " ++ p.resType.toString ++ " labels specified")
  else
    match p.resType with
    | .podType => getPodName p c
    | .serviceType => getFromEndpoints p c r

/-- `getResourceName`: when `Name` is empty, resolve by labels and store
the result in `Name` (`p.Name, err = p.findResourceByLabels(ctx)`; on
error the stored name is the empty string); otherwise return `Name`
unchanged. Returns the result together with the updated receiver. -/
def getResourceName (p : PortForward) (c : Cluster) (r : Nat) :
    Except String String × PortForward :=
  if p.name = "" then
    match findResourceByLabels p c r with
    | .ok n => (.ok n, { p with name := n })
    | .error e => (.error e, { p with name := "" })
  else
    (.ok p.name, p)

/-- `getListenPort`: when `ListenPort` is zero, call `getFreePort` —
an OS probe (bind to `127.0.0.1:0`, read the port, close), modelled by
the oracle `freePort` — and store the result in `ListenPort` (zero when
the probe fails); otherwise return the configured port verbatim. Returns
the result together with the updated receiver. -/
def getListenPort (p : PortForward) (freePort : Except String Int) :
    Except String Int × PortForward :=
  if p.listenPort = 0 then
    match freePort with
    | .ok port => (.ok port, { p with listenPort := port })
    | .error e => (.error e, { p with listenPort := 0 })
  else
    (.ok p.listenPort, p)

/-- The event that ends the wait at the bottom of `Start`: the tunnel
goroutine's error arrives on `errChan`, readiness is signalled on
`readyChan`, or the caller's context is cancelled. -/
inductive WaitEvent where
  | errFired (msg : String)
  | readyFired
  | ctxCancelled
deriving DecidableEq, Repr

/-- The `select` at the end of `Start`: it has exactly two arms,
`errChan` (return the wrapped error) and `readyChan` (return nil). An
event the select has no arm for — context cancellation — does not make
`Start` return: `none` models `Start` still blocked. -/
def startWait : WaitEvent → Option (Except String Unit)
  | .errFired msg => some (.error ("could not create port forward: " ++ msg))
  | .readyFired => some (.ok ())
  | .ctxCancelled => none

/-- Character-list prefix test (used by the substring test below). -/
def charsPre : List Char → List Char → Bool
  | [], _ => true
  | _ :: _, [] => false
  | a :: as, b :: bs => a == b && charsPre as bs

/-- Does the pattern occur contiguously somewhere in the list? -/
def subAt (p : List Char) : List Char → Bool
  | [] => charsPre p []
  | c :: rest => charsPre p (c :: rest) || subAt p rest

/-- Substring test on strings: does `pat` occur contiguously in `s`? -/
def strContainsSub (pat s : String) : Bool :=
  subAt pat.data s.data

/-- With a non-empty selector, `findResourceByLabels` dispatches on the
resource type. -/
theorem findResourceByLabels_dispatch (p : PortForward) (c : Cluster) (r : Nat)
    (hsel : p.labels.matchLabels ≠ [] ∨ p.labels.matchExpressions ≠ []) :
    findResourceByLabels p c r =
      match p.resType with
      | .podType => getPodName p c
      | .serviceType => getFromEndpoints p c r := by
  rw [findResourceByLabels, if_neg]
  exact fun hc => hsel.elim (fun h => h hc.1) (fun h => h hc.2)

/-- The inner address loop returns the head of the list of non-nil
backing references, in address order. -/
theorem firstAddrTargetRef_eq_head (as : List EndpointAddress) :
    firstAddrTargetRef as = (as.filterMap (fun a => a.targetRef)).head? := by
  induction as with
  | nil => rfl
  | cons a rest ih =>
    cases h : a.targetRef <;>
      simp [firstAddrTargetRef, List.filterMap_cons, h, ih]

/-- The subset/address scan returns the head of the flattened list of
non-nil backing references, in subset order then address order. -/
theorem firstTargetRef_eq_head (ss : List EndpointSubset) :
    firstTargetRef ss =
      (ss.flatMap (fun s => s.addresses.filterMap (fun a => a.targetRef))).head? := by
  induction ss with
  | nil => rfl
  | cons s rest ih =>
    rw [firstTargetRef, firstAddrTargetRef_eq_head]
    cases h : s.addresses.filterMap (fun a => a.targetRef) with
    | nil => simp [List.flatMap_cons, h, ih]
    | cons n tl => simp [List.flatMap_cons, h]

/-- The `name=flux` exact-match selector of the unit tests. -/
def fluxSelector : LabelSelector := { matchLabels := [("name", "flux")] }

/-- The `name in (flux,fluxd)` expression selector of the unit tests. -/
def inSelector : LabelSelector :=
  { matchExpressions := [⟨"name", SelOp.opIn, ["flux", "fluxd"]⟩] }

/-- Pod-type forward selecting on `name=flux`. -/
def pfPodFlux : PortForward := { resType := .podType, labels := fluxSelector }

/-- Pod-type forward selecting on `name in (flux,fluxd)`. -/
def pfPodIn : PortForward := { resType := .podType, labels := inSelector }

/-- Service-type forward selecting on `name=flux`. -/
def pfSvcFlux : PortForward := { resType := .serviceType, labels := fluxSelector }

/-- Running pod labelled `name=other`. -/
def podOther : Pod := { name := "mypod1", labels := [("name", "other")], phase := "Running" }

/-- Running pod labelled `name=flux`. -/
def podFlux : Pod := { name := "mypod2", labels := [("name", "flux")], phase := "Running" }

/-- Running pod with no labels. -/
def podBare : Pod := { name := "mypod3", phase := "Running" }

/-- Pod labelled `name=flux` that is not in running phase. -/
def podFluxPending : Pod := { name := "mypod4", labels := [("name", "flux")], phase := "Pending" }

/-- Cluster with exactly one running `name=flux` pod, one further
`name=flux` pod that is not running, and two non-matching running pods. -/
def clusterOneFlux : Cluster :=
  { pods := [podOther, podFlux, podBare, podFluxPending] }

/-- Running pods `mypod1`/`mypod2`, both labelled `name=flux`. -/
def podFluxA : Pod := { name := "mypod1", labels := [("name", "flux")], phase := "Running" }

/-- Second running `name=flux` pod. -/
def podFluxB : Pod := { name := "mypod2", labels := [("name", "flux")], phase := "Running" }

/-- Cluster of the ambiguity test: two running `name=flux` pods and one
bare pod. -/
def clusterTwoFlux : Cluster := { pods := [podFluxA, podFluxB, podBare] }

/-- Cluster of the expression-not-found test: running pods labelled
`name=lol`, `name=lol` and nothing. -/
def clusterLol : Cluster :=
  { pods := [ { name := "mypod1", labels := [("name", "lol")], phase := "Running" },
              { name := "mypod2", labels := [("name", "lol")], phase := "Running" },
              { name := "mypod3", phase := "Running" } ] }

/-- C1: for a pod-type resolution with empty explicit name whose selector
matches exactly one running-phase pod, `findResourceByLabels` returns that
pod's name, and everything counted by the running-phase-filtered list is
in running phase (label-matching pods in another phase are never counted). -/
theorem findResourceByLabels_unique_running_pod
    (p : PortForward) (c : Cluster) (r : Nat) (pod : Pod)
    (hty : p.resType = ResType.podType)
    (hsel : p.labels.matchLabels ≠ [] ∨ p.labels.matchExpressions ≠ [])
    (hone : listPods c p.ns p.labels = [pod]) :
    findResourceByLabels p c r = .ok pod.name ∧
    ∀ q ∈ listPods c p.ns p.labels, q.phase = "Running" := by
  constructor
  · rw [findResourceByLabels_dispatch p c r hsel, hty]
    simp only [getPodName, hone]
  · intro q hq
    simp only [listPods, List.mem_filter, Bool.and_eq_true, beq_iff_eq] at hq
    exact hq.2.2

/-- C1 witness: in `clusterOneFlux` the selector `name=flux` matches
exactly one running pod (`mypod2`); `mypod4` matches the labels but is
pending and is not counted. -/
theorem findResourceByLabels_unique_running_pod_witness :
    listPods clusterOneFlux "" fluxSelector = [podFlux] ∧
    findResourceByLabels pfPodFlux clusterOneFlux 0 = .ok "mypod2" :=
  ⟨by decide,
    (findResourceByLabels_unique_running_pod pfPodFlux clusterOneFlux 0 podFlux rfl
      (Or.inl (by decide)) (by decide)).1⟩

/-- C2: when `Name` is non-empty, `getResourceName` returns `Name`
unchanged (receiver untouched) and its result does not depend on the
cluster state or the random draw — no API call is performed — even when
label criteria are also set. -/
theorem getResourceName_explicit_name
    (p : PortForward) (c c2 : Cluster) (r r2 : Nat)
    (h : p.name ≠ "") :
    getResourceName p c r = (.ok p.name, p) ∧
    getResourceName p c r = getResourceName p c2 r2 := by
  have hfix : ∀ c' r', getResourceName p c' r' = (.ok p.name, p) := by
    intro c' r'
    rw [getResourceName, if_neg h]
  exact ⟨hfix c r, (hfix c r).trans (hfix c2 r2).symm⟩

/-- C2 witness: `Name = "hello"` with the `name=flux` labels also set
resolves to `"hello"` on two different cluster states. -/
theorem getResourceName_explicit_name_witness :
    ({ name := "hello", resType := .podType, labels := fluxSelector } : PortForward).name ≠ "" ∧
    getResourceName { name := "hello", resType := .podType, labels := fluxSelector }
        clusterOneFlux 0 =
      (.ok "hello", { name := "hello", resType := .podType, labels := fluxSelector }) :=
  ⟨by decide,
    (getResourceName_explicit_name
      { name := "hello", resType := .podType, labels := fluxSelector }
      clusterOneFlux {} 0 1 (by decide)).1⟩

/-- C3: a pod-type resolution whose selector matches zero running pods
returns the not-found error whose message embeds the canonical selector
text produced by the platform formatter. -/
theorem findResourceByLabels_notfound_canonical
    (p : PortForward) (c : Cluster) (r : Nat)
    (hty : p.resType = ResType.podType)
    (hsel : p.labels.matchLabels ≠ [] ∨ p.labels.matchExpressions ≠ [])
    (hzero : listPods c p.ns p.labels = []) :
    findResourceByLabels p c r =
      .error ("could not find running pod for selector: labels \"" ++
        formatLabelSelector p.labels ++ "\"") := by
  rw [findResourceByLabels_dispatch p c r hsel, hty]
  simp only [getPodName, hzero, hty]
  rfl

/-- C3 witness: the `name in (flux,fluxd)` selector against running pods
labelled `lol`, `lol`, `{}` fails with the canonical `In` rendering. -/
theorem findResourceByLabels_notfound_canonical_witness :
    listPods clusterLol "" inSelector = [] ∧
    findResourceByLabels pfPodIn clusterLol 0 =
      .error "could not find running pod for selector: labels \"name in (flux,fluxd)\"" := by
  refine ⟨by decide, ?_⟩
  rw [findResourceByLabels_notfound_canonical pfPodIn clusterLol 0 rfl
    (Or.inr (by decide)) (by decide)]
  rfl

/-- C4: a pod-type resolution whose selector matches two or more running
pods returns the ambiguity error, which names the resource-type word
twice and the canonical selector text. -/
theorem findResourceByLabels_ambiguous
    (p : PortForward) (c : Cluster) (r : Nat) (q1 q2 : Pod) (rest : List Pod)
    (hty : p.resType = ResType.podType)
    (hsel : p.labels.matchLabels ≠ [] ∨ p.labels.matchExpressions ≠ [])
    (hmany : listPods c p.ns p.labels = q1 :: q2 :: rest) :
    findResourceByLabels p c r =
      .error ("ambiguous pod: found more than one pod for selector: labels \"" ++
        formatLabelSelector p.labels ++ "\"") := by
  rw [findResourceByLabels_dispatch p c r hsel, hty]
  simp only [getPodName, hmany, hty]
  rfl

/-- C4 witness: two running `name=flux` pods yield exactly the error text
of the repository's ambiguity test. -/
theorem findResourceByLabels_ambiguous_witness :
    listPods clusterTwoFlux "" fluxSelector = [podFluxA, podFluxB] ∧
    findResourceByLabels pfPodFlux clusterTwoFlux 0 =
      .error "ambiguous pod: found more than one pod for selector: labels \"name=flux\"" := by
  refine ⟨by decide, ?_⟩
  rw [findResourceByLabels_ambiguous pfPodFlux clusterTwoFlux 0 podFluxA podFluxB []
    rfl (Or.inl (by decide)) (by decide)]
  rfl

/-- C5: a service-type resolution that selects a matching endpoint object
(the one at the random draw, mod the match count) resolves to the head of
the flattened list of non-nil backing references of that endpoint —
subsets in order, addresses in order — and fails with an error naming
that endpoint when no address carries a backing reference. -/
theorem getFromEndpoints_first_backing_ref
    (p : PortForward) (c : Cluster) (r : Nat) (chosen : Endpoints)
    (hch : (listEndpoints c p.ns p.labels).get?
        (r % (listEndpoints c p.ns p.labels).length) = some chosen) :
    getFromEndpoints p c r =
      match (chosen.subsets.flatMap
          (fun s => s.addresses.filterMap (fun a => a.targetRef))).head? with
      | some n => Except.ok n
      | none => Except.error ("could not find any pods attached to endpoint " ++ chosen.name) := by
  have hlen : ¬(listEndpoints c p.ns p.labels).length = 0 := by
    intro h0
    rw [List.length_eq_zero.mp h0] at hch
    simp at hch
  have hlt : r % (listEndpoints c p.ns p.labels).length <
      (listEndpoints c p.ns p.labels).length :=
    Nat.mod_lt r (Nat.pos_of_ne_zero hlen)
  have hget : (listEndpoints c p.ns p.labels).get
      ⟨r % (listEndpoints c p.ns p.labels).length, hlt⟩ = chosen := by
    rw [List.get?_eq_get hlt] at hch
    exact Option.some.inj hch
  simp only [getFromEndpoints]
  rw [dif_neg hlen, hget, firstTargetRef_eq_head]

/-- C5 witness: with two matching endpoints and draw 1, the second
endpoint `ep-b` is chosen; its first subset's address has no backing
reference, the second subset's address does, and that name is returned. -/
theorem getFromEndpoints_first_backing_ref_witness :
    (listEndpoints
        { endpoints := [ { name := "ep-a", labels := [("name", "flux")] },
                         { name := "ep-b", labels := [("name", "flux")],
                           subsets := [ { addresses := [{}] },
                                        { addresses := [{ targetRef := some "backing-pod" }] } ] } ] }
        "" fluxSelector).get?
      (1 % (listEndpoints
        { endpoints := [ { name := "ep-a", labels := [("name", "flux")] },
                         { name := "ep-b", labels := [("name", "flux")],
                           subsets := [ { addresses := [{}] },
                                        { addresses := [{ targetRef := some "backing-pod" }] } ] } ] }
        "" fluxSelector).length) =
      some { name := "ep-b", labels := [("name", "flux")],
             subsets := [ { addresses := [{}] },
                          { addresses := [{ targetRef := some "backing-pod" }] } ] } ∧
    getFromEndpoints pfSvcFlux
      { endpoints := [ { name := "ep-a", labels := [("name", "flux")] },
                       { name := "ep-b", labels := [("name", "flux")],
                         subsets := [ { addresses := [{}] },
                                      { addresses := [{ targetRef := some "backing-pod" }] } ] } ] }
      1 = .ok "backing-pod" := by
  refine ⟨by decide, ?_⟩
  rw [getFromEndpoints_first_backing_ref pfSvcFlux _ 1
    { name := "ep-b", labels := [("name", "flux")],
      subsets := [ { addresses := [{}] },
                   { addresses := [{ targetRef := some "backing-pod" }] } ] }
    (by decide)]
  rfl

/-- C6 (amended): the `select` ending `Start` has exactly the two arms
`errChan` and `readyChan`; context cancellation is not an arm, so a
cancellation event does not make `Start` return (it stays blocked), and
in particular no cancellation error is returned and no stop signal is
sent on its account. -/
theorem startWait_two_arms (msg : String) :
    startWait (WaitEvent.errFired msg) =
      some (.error ("could not create port forward: " ++ msg)) ∧
    startWait WaitEvent.readyFired = some (.ok ()) ∧
    startWait WaitEvent.ctxCancelled = none :=
  ⟨rfl, rfl, rfl⟩

/-- C6 counterexample: when the context is cancelled while `Start` waits,
`Start` does not return at all — in particular it does not return a
cancellation error as the claim states. -/
theorem startWait_cancel_blocks :
    startWait WaitEvent.ctxCancelled = none := rfl

/-- C7: with a non-zero configured `ListenPort`, `getListenPort` returns
it verbatim, untouched, and independently of the free-port probe (no
discovery); with `ListenPort = 0` it takes the probe's port, which is
non-zero whenever the probe's is, stores it, and a subsequent call on the
updated session returns the same cached value without consulting its own
probe oracle. -/
theorem getListenPort_caches
    (p : PortForward) (port : Int) (oracle oracle2 oracle3 : Except String Int)
    (hport : port ≠ 0) :
    (p.listenPort ≠ 0 →
      getListenPort p oracle = (.ok p.listenPort, p) ∧
      getListenPort p oracle = getListenPort p oracle3) ∧
    (p.listenPort = 0 →
      getListenPort p (.ok port) = (.ok port, { p with listenPort := port }) ∧
      getListenPort { p with listenPort := port } oracle2 =
        (.ok port, { p with listenPort := port })) := by
  constructor
  · intro h
    have hfix : ∀ o, getListenPort p o = (.ok p.listenPort, p) := by
      intro o
      simp only [getListenPort]
      rw [if_neg h]
    exact ⟨hfix oracle, (hfix oracle).trans (hfix oracle3).symm⟩
  · intro h
    constructor
    · simp only [getListenPort]
      rw [if_pos h]
    · simp only [getListenPort]
      rw [if_neg]
      exact fun h0 => hport (by simpa using h0)

/-- C7 witness: a session with `ListenPort = 0` takes the probed port
8080, stores it, and the next call returns the cached 8080 without
using its oracle (here an erroring one). -/
theorem getListenPort_caches_witness :
    (8080 : Int) ≠ 0 ∧
    (({} : PortForward).listenPort = 0 →
      getListenPort {} (.ok 8080) = (.ok 8080, { listenPort := 8080 }) ∧
      getListenPort { listenPort := 8080 } (.error "probe failed") =
        (.ok 8080, { listenPort := 8080 })) :=
  ⟨by decide,
    (getListenPort_caches {} 8080 (.error "unused") (.error "probe failed")
      (.error "unused") (by decide)).2⟩

/-- C8: with an empty explicit name and both selector parts empty,
resolution fails with the no-selector error, and the whole call is
independent of the cluster state and the random draw — no API call is
made. -/
theorem getResourceName_no_selector
    (p : PortForward) (c c2 : Cluster) (r r2 : Nat)
    (hname : p.name = "")
    (hml : p.labels.matchLabels = [])
    (hme : p.labels.matchExpressions = []) :
    (getResourceName p c r).1 = .error ("no " ++ p.resType.toString ++ " labels specified") ∧
    getResourceName p c r = getResourceName p c2 r2 := by
  have hf : ∀ c' r', findResourceByLabels p c' r' =
      .error ("no " ++ p.resType.toString ++ " labels specified") := by
    intro c' r'
    rw [findResourceByLabels, if_pos ⟨hml, hme⟩]
  have hg : ∀ c' r', getResourceName p c' r' =
      (.error ("no " ++ p.resType.toString ++ " labels specified"),
        { p with name := "" }) := by
    intro c' r'
    simp only [getResourceName]
    rw [if_pos hname, hf c' r']
  exact ⟨by rw [hg c r], (hg c r).trans (hg c2 r2).symm⟩

/-- C8 witness: the zero-value pod-type forward (empty name, empty
selector) fails with `no pod labels specified` on any cluster. -/
theorem getResourceName_no_selector_witness :
    ({} : PortForward).name = "" ∧
    (getResourceName {} {} 0).1 = .error "no pod labels specified" := by
  refine ⟨rfl, ?_⟩
  rw [(getResourceName_no_selector {} {} clusterOneFlux 0 1 rfl rfl rfl).1]
  rfl

/-- C9 (amended): a service-type resolution whose selector matches zero
endpoint records fails with a not-found error naming `endpoints` — a
fixed word, not the resource-type word `service` — together with the
canonical selector text. -/
theorem findResourceByLabels_endpoints_notfound
    (p : PortForward) (c : Cluster) (r : Nat)
    (hty : p.resType = ResType.serviceType)
    (hsel : p.labels.matchLabels ≠ [] ∨ p.labels.matchExpressions ≠ [])
    (hzero : listEndpoints c p.ns p.labels = []) :
    findResourceByLabels p c r =
      .error ("could not find running endpoints for selector: labels \"" ++
        formatLabelSelector p.labels ++ "\"") := by
  rw [findResourceByLabels_dispatch p c r hsel, hty]
  simp only [getFromEndpoints, hzero, List.length_nil]
  rfl

/-- C9 counterexample: for the `name=flux` selector and no endpoint
records, the resolution error is exactly the `endpoints`-naming message,
and the resource-type word `service` does not occur in it. -/
theorem getFromEndpoints_no_service_word :
    getFromEndpoints pfSvcFlux {} 0 =
      .error "could not find running endpoints for selector: labels \"name=flux\"" ∧
    strContainsSub "service"
      "could not find running endpoints for selector: labels \"name=flux\"" = false :=
  ⟨rfl, by decide⟩

/-- C9 witness: the amended statement at the same concrete input. -/
theorem findResourceByLabels_endpoints_notfound_witness :
    listEndpoints ({} : Cluster) "" fluxSelector = [] ∧
    findResourceByLabels pfSvcFlux {} 0 =
      .error "could not find running endpoints for selector: labels \"name=flux\"" := by
  refine ⟨by decide, ?_⟩
  rw [findResourceByLabels_endpoints_notfound pfSvcFlux {} 0 rfl
    (Or.inl (by decide)) (by decide)]
  rfl

/-- C10: `NewPortForwarder` with no options builds a service-type
forward, so resolution with a non-empty selector takes the endpoints
path, not the pod path. -/
theorem newPortForwarder_default_service
    (ns : String) (labels : LabelSelector) (port : Int) (c : Cluster) (r : Nat)
    (hsel : labels.matchLabels ≠ [] ∨ labels.matchExpressions ≠ []) :
    (newPortForwarder ns labels port []).resType = ResType.serviceType ∧
    findResourceByLabels (newPortForwarder ns labels port []) c r =
      getFromEndpoints (newPortForwarder ns labels port []) c r := by
  refine ⟨rfl, ?_⟩
  rw [findResourceByLabels_dispatch _ c r hsel]
  rfl

/-- C10 witness: the default construction on the `name=flux` selector is
service-typed and resolves through the endpoints path. -/
theorem newPortForwarder_default_service_witness :
    (fluxSelector.matchLabels ≠ [] ∨ fluxSelector.matchExpressions ≠ []) ∧
    ((newPortForwarder "default" fluxSelector 8080 []).resType = ResType.serviceType ∧
      findResourceByLabels (newPortForwarder "default" fluxSelector 8080 []) {} 0 =
        getFromEndpoints (newPortForwarder "default" fluxSelector 8080 []) {} 0) :=
  ⟨Or.inl (by decide),
    newPortForwarder_default_service "default" fluxSelector 8080 {} 0
      (Or.inl (by decide))⟩
